import Mathlib

set_option maxRecDepth 4000

/-
Verification of the session-orchestration core of the tutoring simulation:
the conversation store (`server/conversationManager.mjs`), the two turn
endpoints (`server/index.mjs`), and the strategy / prediction prompting
module (`tutorPrompts.mjs`).  Each definition is a direct shallow embedding
of the corresponding source function; `spec...` definitions restate the
design document's wording for comparison.
-/

/-- A chat message as stored by the conversation manager
(`conversationManager.mjs`, `addMessage`).  The wall-clock `timestamp`
field of the source is not modelled (real time). -/
structure Message where
  role : String
  content : String
deriving Repr, DecidableEq

/-- The locked level record created by `setLockedPrediction`
(`conversationManager.mjs`).  The wall-clock `lockedAt` field of the
source is not modelled (real time). -/
structure LockedPrediction where
  level : Int
  rationale : String
  lockedAtTurn : Nat
deriving Repr, DecidableEq

/-- A conversation record as created by `createConversation`
(`conversationManager.mjs`).  The `student` and `topic` payload objects
are carried opaquely by their identifiers. -/
structure Conversation where
  studentId : String
  topicId : String
  messages : List Message
  turnNumber : Nat
  maxTurns : Nat
  isComplete : Bool
  lockedPrediction : Option LockedPrediction
deriving Repr, DecidableEq

/-- `MAX_TURNS` constant of `conversationManager.mjs`. -/
def MAX_TURNS : Nat := 10

/-- `createConversation` (`conversationManager.mjs`): fresh record with an
empty log, turn counter 0, completion flag false, no locked prediction. -/
def createConversation (studentId topicId : String) : Conversation :=
  { studentId := studentId
    topicId := topicId
    messages := []
    turnNumber := 0
    maxTurns := MAX_TURNS
    isComplete := false
    lockedPrediction := none }

/-- `addMessage` (`conversationManager.mjs`), found-conversation case:
push the message, increment the turn counter on a tutor message, then
set the completion flag when `turnNumber >= maxTurns`. -/
def addMessage (c : Conversation) (role content : String) : Conversation :=
  let withMsg : Conversation :=
    { c with messages := c.messages ++ [{ role := role, content := content }] }
  let advanced : Conversation :=
    if role == "tutor" then { withMsg with turnNumber := withMsg.turnNumber + 1 }
    else withMsg
  if advanced.maxTurns ≤ advanced.turnNumber then { advanced with isComplete := true }
  else advanced

/-- `endConversation` (`conversationManager.mjs`), found-conversation case:
unconditionally sets the completion flag. -/
def endConversation (c : Conversation) : Conversation :=
  { c with isComplete := true }

/-- `setLockedPrediction` (`conversationManager.mjs`), found-conversation
case: stores the record only when none is stored yet (a stored record is a
JS object, hence always truthy), and returns the stored record. -/
def setLockedPrediction (c : Conversation) (level : Int) (rationale : String) :
    Conversation × Option LockedPrediction :=
  match c.lockedPrediction with
  | none =>
    let lp : LockedPrediction :=
      { level := level, rationale := rationale, lockedAtTurn := c.turnNumber }
    ({ c with lockedPrediction := some lp }, some lp)
  | some lp => (c, some lp)

/-- The in-memory `conversations` map of `conversationManager.mjs`,
modelled as an association list keyed by conversation id. -/
abbrev Store := List (String × Conversation)

/-- `getConversation` / `conversations.get` lookup. -/
def storeGet (s : Store) (conversationId : String) : Option Conversation :=
  match s.find? (fun p => p.fst == conversationId) with
  | some p => some p.snd
  | none => none

/-- `isConversationComplete` (`conversationManager.mjs`):
`conversation ? conversation.isComplete : true`. -/
def isConversationComplete (s : Store) (conversationId : String) : Bool :=
  match storeGet s conversationId with
  | some c => c.isComplete
  | none => true

/-- One store operation on a single conversation, for reasoning about
operation sequences. -/
inductive ConvOp where
  | addMsg (role content : String)
  | endConv
  | lockPred (level : Int) (rationale : String)
deriving Repr, DecidableEq

/-- Apply one operation to a conversation. -/
def applyOp (c : Conversation) : ConvOp → Conversation
  | .addMsg role content => addMessage c role content
  | .endConv => endConversation c
  | .lockPred level rationale => (setLockedPrediction c level rationale).fst

/-- Run a sequence of store operations on a conversation. -/
def runOps (c : Conversation) (ops : List ConvOp) : Conversation :=
  ops.foldl applyOp c

/-- Does `pat` occur at the start of `text` (character lists)? -/
def leadsWith : List Char → List Char → Bool
  | [], _ => true
  | _ :: _, [] => false
  | a :: as, b :: bs => a == b && leadsWith as bs

/-- Does `pat` occur anywhere in `text` (character lists)? -/
def occursIn (pat : List Char) : List Char → Bool
  | [] => pat.isEmpty
  | b :: bs => leadsWith pat (b :: bs) || occursIn pat bs

/-- JavaScript `text.includes(pat)`. -/
def strIncludes (text pat : String) : Bool :=
  occursIn pat.toList text.toList

/-- JavaScript `text.toLowerCase()` (ASCII case mapping, which covers every
marker string compared against). -/
def toLowerAscii (s : String) : String :=
  ⟨s.data.map Char.toLower⟩

/-- `CONFUSION_MARKERS` of `tutorPrompts.mjs`. -/
def CONFUSION_MARKERS : List String :=
  ["dont understand", "don\x27t understand", "do not understand", "idk",
   "no idea", "not sure", "i dont know", "i don\x27t know", "i am lost",
   "im lost", "confused"]

/-- `hedgeMarkers` of `quickEstimateForStrategy` (`tutorPrompts.mjs`). -/
def hedgeMarkers : List String :=
  ["maybe", "i think", "i guess", "not sure", "unsure"]

/-- `reasonMarkers` of `quickEstimateForStrategy` (`tutorPrompts.mjs`). -/
def reasonMarkers : List String :=
  ["because", "so that", "therefore", "since", "so", "means", "reason"]

/-- `markers.some(m => text.includes(m))`. -/
def containsAny (text : String) (markers : List String) : Bool :=
  markers.any (fun pat => strIncludes text pat)

/-- JavaScript `/\d/.test(text)`. -/
def hasDigit (text : String) : Bool :=
  text.toList.any (fun ch => ch.isDigit)

/-- JavaScript `arr.slice(-n)`: the last `n` elements (all of them when the
list is shorter). -/
def lastN (n : Nat) (l : List α) : List α :=
  l.drop (l.length - n)

/-- The score contribution of one student message inside the loop of
`quickEstimateForStrategy` (`tutorPrompts.mjs`): confusion marker −2,
hedging marker −1, reasoning marker +1, `wait`/`actually` +1, digit +1. -/
def messageSignalScore (content : String) : Int :=
  let text := toLowerAscii content
  (if containsAny text CONFUSION_MARKERS then (-2 : Int) else 0)
    + (if containsAny text hedgeMarkers then (-1 : Int) else 0)
    + (if containsAny text reasonMarkers then (1 : Int) else 0)
    + (if strIncludes text "wait" || strIncludes text "actually" then (1 : Int) else 0)
    + (if hasDigit text then (1 : Int) else 0)

/-- The final threshold chain of `quickEstimateForStrategy`. -/
def bucketScore (score : Int) : Nat :=
  if score ≤ -3 then 1
  else if score ≤ -1 then 2
  else if score ≤ 1 then 3
  else if score ≤ 3 then 4
  else 5

/-- `quickEstimateForStrategy` (`tutorPrompts.mjs`): score the last three
student messages and bucket the sum. -/
def quickEstimateForStrategy (messages : List Message) : Nat :=
  let window := lastN 3 (messages.filter (fun m => m.role == "student"))
  bucketScore (window.foldl (fun acc m => acc + messageSignalScore m.content) 0)

/-- The `topic` object, as far as `buildStrategyDirective` reads it
(`topic.name || ''`, with a possibly missing name). -/
structure Topic where
  name : Option String
deriving Repr, DecidableEq

/-- The fixed turn-1 directive returned by `buildStrategyDirective`
(`tutorPrompts.mjs`). -/
def turn1OpeningDirective : String :=
  "Adaptive strategy: Follow the TURN 1 Opening Survey structure exactly. " ++
  "Include the 3 questions labeled Basic/Intermediate/Advanced. " ++
  "Do not add extra questions beyond those three."

/-- `[...messages].reverse().find(m => m.role === 'student')?.content || ''`
(`buildStrategyDirective`, `tutorPrompts.mjs`). -/
def lastStudentText (messages : List Message) : String :=
  match messages.reverse.find? (fun m => m.role == "student") with
  | some m => m.content
  | none => ""

/-- `buildStrategyDirective` (`tutorPrompts.mjs`). -/
def buildStrategyDirective (turn maxTurns : Nat) (phase : String) (topic : Topic)
    (messages : List Message) : String :=
  if turn == 1 then
    turn1OpeningDirective
  else
    let lastText := toLowerAscii (lastStudentText messages)
    let isConfused := containsAny lastText CONFUSION_MARKERS
    let estimatedLevel := quickEstimateForStrategy messages
    let guidance :=
      if phase == "diagnostic" then
        if isConfused then
          "If the student is confused, acknowledge it and give ONE short clarification, " ++
          "then ask ONE simple check question."
        else
          "Ask at most TWO short diagnostic questions. Require a brief reason for one."
      else
        if isConfused then
          "Start by resolving the confusion from the last turn in 2-3 sentences, " ++
          "then ask ONE focused check question."
        else if 4 ≤ estimatedLevel then
          "Ask a transfer or \x27why\x27 question to probe depth. Require a 1-sentence justification."
        else
          "Give a concise explanation, then ask ONE practice question plus a short reason."
    "Adaptive strategy: " ++
      "turn=" ++ toString turn ++ "/" ++ toString maxTurns ++
      ", phase=" ++ phase ++ ", " ++
      "topic=" ++ topic.name.getD "" ++
      ", estimated_level=" ++ toString estimatedLevel ++ ". " ++
      guidance ++ " Avoid long lectures and always respond to the last student message."

/-- The phase computation shared by `buildTutorMessages`
(`tutorPrompts.mjs`) and the `/api/tutor-response` handler
(`server/index.mjs`): `turn <= 5 ? 'diagnostic' : 'tutoring'`. -/
def phaseFor (turn : Nat) : String :=
  if turn ≤ 5 then "diagnostic" else "tutoring"

/-- The outcome of the platform `JSON.parse` call on the judge's raw
output, as far as the handlers inspect it: the `level` and `rationale`
fields.  `JSON.parse` is a platform primitive external to the repository,
so its outcome is supplied as data; `none` on a field models a missing
(undefined) field.  Numeric levels are modelled as integers. -/
structure ParsedJson where
  level : Option Int
  rationale : Option String
deriving Repr, DecidableEq

/-- `parsed.level && parsed.level >= 1 && parsed.level <= 5 ? parsed.level : 3`
(JS number truthiness: zero is falsy), from both handlers in
`server/index.mjs`. -/
def parsePredictionLevel (parsed : ParsedJson) : Int :=
  match parsed.level with
  | some l => if l ≠ 0 ∧ 1 ≤ l ∧ l ≤ 5 then l else 3
  | none => 3

/-- `parsed.rationale || ''` (JS string truthiness: the empty string is
falsy, so the result is the field when present, else `""`). -/
def parsePredictionRationale (parsed : ParsedJson) : String :=
  match parsed.rationale with
  | some r => r
  | none => ""

/-- `rawPrediction.match(/[1-5]/)`: the first character of the raw text in
`'1'..'5'`. -/
def firstDigit15 (raw : String) : Option Char :=
  raw.toList.find? (fun ch => 49 ≤ ch.toNat && ch.toNat ≤ 53)

/-- `parseInt` of a matched digit character. -/
def digitVal (ch : Char) : Int :=
  Int.ofNat (ch.toNat - 48)

/-- The `let level = 3; let rationale = ''; try {JSON.parse ...} catch
{digit scan}` fallback chain shared by both handlers in
`server/index.mjs`.  The first argument is the `JSON.parse` outcome for
`raw` (`none` models a parse exception). -/
def predictionOf (parsed : Option ParsedJson) (raw : String) : Int × String :=
  match parsed with
  | some p => (parsePredictionLevel p, parsePredictionRationale p)
  | none =>
    match firstDigit15 raw with
    | some ch => (digitVal ch, "")
    | none => (3, "")

/-- The judgment-service call outcome seen by a handler: either the call
threw (timeout / error), or it returned raw text together with its
`JSON.parse` outcome. -/
inductive JudgeOutcome where
  | failure
  | output (parsed : Option ParsedJson) (raw : String)
deriving Repr, DecidableEq

/-- The level-lock tail of both handlers (`server/index.mjs`): on a judge
failure lock `(3, "Default (prediction failed)")`, otherwise run the
parse chain and lock its result.  Returns the updated conversation and
the `estimatedLevel` reported to the caller. -/
def runLevelLock (c : Conversation) (outcome : JudgeOutcome) : Conversation × Int :=
  match outcome with
  | .failure => ((setLockedPrediction c 3 "Default (prediction failed)").fst, 3)
  | .output parsed raw =>
    let lr := predictionOf parsed raw
    ((setLockedPrediction c lr.fst lr.snd).fst, lr.fst)

/-- Number of student-authored messages in a conversation's log. -/
def studentMessageCount (c : Conversation) : Nat :=
  (c.messages.filter (fun m => m.role == "student")).length

/-- The level-lock trigger of the `/api/interact` handler
(`server/index.mjs`): no locked prediction and at least 5 student
messages in the (post-append) log. -/
def interactShouldRunJudge (c : Conversation) : Bool :=
  c.lockedPrediction.isNone && decide (5 ≤ studentMessageCount c)

/-- The level-lock trigger of the `/api/tutor-response` handler
(`server/index.mjs`): no locked prediction and `turn >= 6`, where
`turn = conversation.turnNumber + 1` is the upcoming tutor turn. -/
def tutorResponseShouldRunJudge (c : Conversation) : Bool :=
  c.lockedPrediction.isNone && decide (6 ≤ c.turnNumber + 1)

/-- An HTTP response of the two turn endpoints, restricted to the fields
the handlers set. -/
inductive HttpResponse where
  | clientError (status : Nat) (error : String)
  | serverError (error : String) (details : Option String)
  | interactOk (studentResponse : String) (turnNumber : Nat) (isComplete : Bool)
      (estimatedLevel : Option Int)
  | tutorOk (tutorResponse : String) (turnNumber : Nat) (phase : String)
      (estimatedLevel : Option Int) (isLastTurn : Bool)
deriving Repr, DecidableEq

/-- Is the response a success (200) response? -/
def isOkResponse : HttpResponse → Bool
  | .interactOk _ _ _ _ => true
  | .tutorOk _ _ _ _ _ => true
  | _ => false

/-- The `POST /api/interact` handler (`server/index.mjs`), with its
external collaborators passed as data: `conv` is the store lookup result,
`systemPrompt` the `buildSystemPrompt` result (`none` models a falsy
prompt), `dialogue` the student-side dialogue-generation call outcome,
and `judge` the judgment-service outcome.  Returns the response and the
conversation state after the request. -/
def handleInteract (conversationId tutorMessage : Option String)
    (conv : Option Conversation) (systemPrompt : Option String)
    (dialogue : Except String String) (judge : JudgeOutcome) :
    HttpResponse × Option Conversation :=
  match conversationId, tutorMessage with
  | none, _ => (.clientError 400 "conversation_id and tutor_message are required", conv)
  | some _, none => (.clientError 400 "conversation_id and tutor_message are required", conv)
  | some _, some msgText =>
    match conv with
    | none => (.clientError 404 "Conversation not found", none)
    | some c =>
      if c.isComplete then
        (.clientError 400 "Conversation is already complete", some c)
      else
        let c1 := addMessage c "tutor" msgText
        match systemPrompt with
        | none => (.serverError "Failed to build system prompt" none, some c1)
        | some _ =>
          match dialogue with
          | .error e => (.serverError "Failed to generate student response" (some e), some c1)
          | .ok studentResponse =>
            let c2 := addMessage c1 "student" studentResponse
            match c2.lockedPrediction with
            | some lp =>
              (.interactOk studentResponse c2.turnNumber c2.isComplete (some lp.level), some c2)
            | none =>
              if 5 ≤ studentMessageCount c2 then
                let r := runLevelLock c2 judge
                (.interactOk studentResponse c2.turnNumber c2.isComplete (some r.snd), some r.fst)
              else
                (.interactOk studentResponse c2.turnNumber c2.isComplete none, some c2)

/-- The `POST /api/tutor-response` handler (`server/index.mjs`), external
collaborators passed as data as in `handleInteract`.  Note: it appends no
message, and it checks only existence of the conversation, not its
completion flag. -/
def handleTutorResponse (conversationId : Option String) (conv : Option Conversation)
    (dialogue : Except String String) (judge : JudgeOutcome) :
    HttpResponse × Option Conversation :=
  match conversationId with
  | none => (.clientError 400 "conversation_id is required", conv)
  | some _ =>
    match conv with
    | none => (.clientError 404 "Conversation not found", none)
    | some c =>
      let turn := c.turnNumber + 1
      match dialogue with
      | .error e => (.serverError "Failed to generate tutor response" (some e), some c)
      | .ok tutorResponse =>
        match c.lockedPrediction with
        | some lp =>
          (.tutorOk tutorResponse turn (phaseFor turn) (some lp.level)
            (decide (c.maxTurns ≤ turn)), some c)
        | none =>
          if 6 ≤ turn then
            let r := runLevelLock c judge
            (.tutorOk tutorResponse turn (phaseFor turn) (some r.snd)
              (decide (c.maxTurns ≤ turn)), some r.fst)
          else
            (.tutorOk tutorResponse turn (phaseFor turn) none
              (decide (c.maxTurns ≤ turn)), some c)

/-- The Level Lock trigger condition as the design document words it: no
locked level yet, and the number of student-authored messages in the log
is at least the diagnostic boundary (5). -/
def specLevelLockTrigger (c : Conversation) : Bool :=
  c.lockedPrediction.isNone && decide (5 ≤ studentMessageCount c)

/-- Confusion detection as the design document words it: the most recent
student-authored message, case-insensitively, contains a confusion
marker; with no student message, not confused. -/
def specIsConfused (messages : List Message) : Bool :=
  match (messages.filter (fun m => m.role == "student")).getLast? with
  | some m => containsAny (toLowerAscii m.content) CONFUSION_MARKERS
  | none => false

/-- The heuristic level as the design document words it: sum the signal
scores of the last three student messages, then bucket via the fixed
thresholds. -/
def specHeuristicLevel (messages : List Message) : Nat :=
  bucketScore
    (((lastN 3 (messages.filter (fun m => m.role == "student"))).map
      (fun m => messageSignalScore m.content)).sum)

/-- The directive-branch table as the design document words it, indexed by
phase × isConfused × (heuristic level ≥ 4); the diagnostic rows do not
consult the heuristic level. -/
def specGuidance (isDiagnostic isConfused highLevel : Bool) : String :=
  if isDiagnostic then
    if isConfused then
      "If the student is confused, acknowledge it and give ONE short clarification, " ++
      "then ask ONE simple check question."
    else
      "Ask at most TWO short diagnostic questions. Require a brief reason for one."
  else
    if isConfused then
      "Start by resolving the confusion from the last turn in 2-3 sentences, " ++
      "then ask ONE focused check question."
    else if highLevel then
      "Ask a transfer or \x27why\x27 question to probe depth. Require a 1-sentence justification."
    else
      "Give a concise explanation, then ask ONE practice question plus a short reason."

/-- The whole directive as the design document words it: turn 1 yields the
fixed opening template regardless of history; later turns assemble the
header and the branch chosen from the table. -/
def specStrategyDirective (turn maxTurns : Nat) (phase : String) (topic : Topic)
    (messages : List Message) : String :=
  if turn == 1 then
    turn1OpeningDirective
  else
    "Adaptive strategy: " ++
      "turn=" ++ toString turn ++ "/" ++ toString maxTurns ++
      ", phase=" ++ phase ++ ", " ++
      "topic=" ++ topic.name.getD "" ++
      ", estimated_level=" ++ toString (specHeuristicLevel messages) ++ ". " ++
      specGuidance (phase == "diagnostic") (specIsConfused messages)
        (decide (4 ≤ specHeuristicLevel messages)) ++
      " Avoid long lectures and always respond to the last student message."

theorem find?_eq_head?_filter (p : α → Bool) (l : List α) :
    l.find? p = (l.filter p).head? := by
  induction l with
  | nil => rfl
  | cons a t ih =>
    rw [List.find?_cons, List.filter_cons]
    cases h : p a with
    | true => rfl
    | false => rw [if_neg (by decide)]; exact ih

theorem reverse_find?_eq_filter_getLast? (p : α → Bool) (l : List α) :
    l.reverse.find? p = (l.filter p).getLast? := by
  rw [find?_eq_head?_filter, List.filter_reverse, List.head?_reverse]

theorem foldl_add_eq_sum_map (f : α → Int) (l : List α) (a : Int) :
    l.foldl (fun acc x => acc + f x) a = a + (l.map f).sum := by
  induction l generalizing a with
  | nil => simp
  | cons x t ih => simp [List.foldl_cons, ih]; ring

theorem quickEstimate_eq_spec (messages : List Message) :
    quickEstimateForStrategy messages = specHeuristicLevel messages := by
  simp only [quickEstimateForStrategy, specHeuristicLevel]
  rw [foldl_add_eq_sum_map]
  simp

theorem isConfused_eq_spec (messages : List Message) :
    containsAny (toLowerAscii (lastStudentText messages)) CONFUSION_MARKERS =
      specIsConfused messages := by
  simp only [lastStudentText, specIsConfused]
  rw [reverse_find?_eq_filter_getLast?]
  cases (messages.filter (fun m => m.role == "student")).getLast? with
  | some m => rfl
  | none => rfl

theorem addMessage_messages (c : Conversation) (role content : String) :
    (addMessage c role content).messages =
      c.messages ++ [{ role := role, content := content }] := by
  by_cases hr : role == "tutor" <;> simp [addMessage, hr] <;> split <;> simp_all

theorem addMessage_turnNumber (c : Conversation) (role content : String) :
    (addMessage c role content).turnNumber =
      c.turnNumber + (if role == "tutor" then 1 else 0) := by
  by_cases hr : role == "tutor" <;> simp [addMessage, hr] <;> split <;> simp_all

theorem addMessage_maxTurns (c : Conversation) (role content : String) :
    (addMessage c role content).maxTurns = c.maxTurns := by
  by_cases hr : role == "tutor" <;> simp [addMessage, hr] <;> split <;> simp_all

theorem addMessage_lockedPrediction (c : Conversation) (role content : String) :
    (addMessage c role content).lockedPrediction = c.lockedPrediction := by
  by_cases hr : role == "tutor" <;> simp [addMessage, hr] <;> split <;> simp_all

theorem addMessage_isComplete (c : Conversation) (role content : String) :
    (addMessage c role content).isComplete =
      (c.isComplete ||
        decide (c.maxTurns ≤ c.turnNumber + (if role == "tutor" then 1 else 0))) := by
  by_cases hr : role == "tutor" <;> simp [addMessage, hr] <;> split <;> simp_all

theorem setLockedPrediction_fst_turnNumber (c : Conversation) (lv : Int) (ra : String) :
    ((setLockedPrediction c lv ra).fst).turnNumber = c.turnNumber := by
  cases h : c.lockedPrediction <;> simp [setLockedPrediction, h]

theorem setLockedPrediction_fst_maxTurns (c : Conversation) (lv : Int) (ra : String) :
    ((setLockedPrediction c lv ra).fst).maxTurns = c.maxTurns := by
  cases h : c.lockedPrediction <;> simp [setLockedPrediction, h]

theorem setLockedPrediction_fst_isComplete (c : Conversation) (lv : Int) (ra : String) :
    ((setLockedPrediction c lv ra).fst).isComplete = c.isComplete := by
  cases h : c.lockedPrediction <;> simp [setLockedPrediction, h]

theorem setLockedPrediction_fst_messages (c : Conversation) (lv : Int) (ra : String) :
    ((setLockedPrediction c lv ra).fst).messages = c.messages := by
  cases h : c.lockedPrediction <;> simp [setLockedPrediction, h]

/-- Is the operation a tutor-message append? -/
def isTutorAppend : ConvOp → Bool
  | .addMsg role _ => role == "tutor"
  | _ => false

theorem applyOp_maxTurns (c : Conversation) (op : ConvOp) :
    (applyOp c op).maxTurns = c.maxTurns := by
  cases op with
  | addMsg role content => exact addMessage_maxTurns c role content
  | endConv => rfl
  | lockPred lv ra => exact setLockedPrediction_fst_maxTurns c lv ra

theorem applyOp_turnNumber (c : Conversation) (op : ConvOp) :
    (applyOp c op).turnNumber = c.turnNumber + (if isTutorAppend op then 1 else 0) := by
  cases op with
  | addMsg role content =>
    simpa [isTutorAppend] using addMessage_turnNumber c role content
  | endConv => simp [applyOp, endConversation, isTutorAppend]
  | lockPred lv ra =>
    simp [applyOp, isTutorAppend, setLockedPrediction_fst_turnNumber]

theorem applyOp_complete_mono (c : Conversation) (op : ConvOp)
    (h : c.isComplete = true) : (applyOp c op).isComplete = true := by
  cases op with
  | addMsg role content => simp [applyOp, addMessage_isComplete, h]
  | endConv => rfl
  | lockPred lv ra => simp [applyOp, setLockedPrediction_fst_isComplete, h]

theorem applyOp_threshold (c : Conversation) (op : ConvOp)
    (h : c.maxTurns ≤ c.turnNumber → c.isComplete = true) :
    (applyOp c op).maxTurns ≤ (applyOp c op).turnNumber →
      (applyOp c op).isComplete = true := by
  cases op with
  | addMsg role content =>
    rw [show applyOp c (ConvOp.addMsg role content) = addMessage c role content from rfl]
    intro hle
    rw [addMessage_maxTurns, addMessage_turnNumber] at hle
    rw [addMessage_isComplete]
    simp only [Bool.or_eq_true, decide_eq_true_eq]
    right
    exact hle
  | endConv => intro _; rfl
  | lockPred lv ra =>
    intro hle
    rw [show applyOp c (ConvOp.lockPred lv ra) = (setLockedPrediction c lv ra).fst from rfl,
      setLockedPrediction_fst_maxTurns, setLockedPrediction_fst_turnNumber] at hle
    simp [applyOp, setLockedPrediction_fst_isComplete, h hle]

theorem applyOp_complete_iff (c : Conversation) (op : ConvOp)
    (hop : op ≠ ConvOp.endConv)
    (h : c.isComplete = decide (c.maxTurns ≤ c.turnNumber)) :
    (applyOp c op).isComplete =
      decide ((applyOp c op).maxTurns ≤ (applyOp c op).turnNumber) := by
  cases op with
  | addMsg role content =>
    rw [show applyOp c (ConvOp.addMsg role content) = addMessage c role content from rfl,
      addMessage_isComplete, addMessage_maxTurns, addMessage_turnNumber, h]
    by_cases hr : role == "tutor" <;>
      by_cases h1 : c.maxTurns ≤ c.turnNumber <;> simp [hr, h1] <;> omega
  | endConv => exact absurd rfl hop
  | lockPred lv ra =>
    rw [show applyOp c (ConvOp.lockPred lv ra) = (setLockedPrediction c lv ra).fst from rfl,
      setLockedPrediction_fst_isComplete, setLockedPrediction_fst_maxTurns,
      setLockedPrediction_fst_turnNumber, h]

theorem runOps_cons (c : Conversation) (op : ConvOp) (ops : List ConvOp) :
    runOps c (op :: ops) = runOps (applyOp c op) ops := rfl

theorem runOps_append (c : Conversation) (l1 l2 : List ConvOp) :
    runOps c (l1 ++ l2) = runOps (runOps c l1) l2 := by
  simp [runOps, List.foldl_append]

theorem runOps_maxTurns (ops : List ConvOp) : ∀ c : Conversation,
    (runOps c ops).maxTurns = c.maxTurns := by
  induction ops with
  | nil => intro c; rfl
  | cons op ops ih =>
    intro c
    rw [runOps_cons, ih, applyOp_maxTurns]

theorem runOps_turnNumber (ops : List ConvOp) : ∀ c : Conversation,
    (runOps c ops).turnNumber =
      c.turnNumber + ops.countP (fun op => isTutorAppend op) := by
  induction ops with
  | nil => intro c; simp [runOps]
  | cons op ops ih =>
    intro c
    rw [runOps_cons, ih, applyOp_turnNumber, List.countP_cons]
    by_cases ht : isTutorAppend op <;> simp [ht] <;> omega

theorem runOps_complete_mono (ops : List ConvOp) : ∀ c : Conversation,
    c.isComplete = true → (runOps c ops).isComplete = true := by
  induction ops with
  | nil => intro c h; exact h
  | cons op ops ih =>
    intro c h
    rw [runOps_cons]
    exact ih _ (applyOp_complete_mono c op h)

theorem runOps_threshold (ops : List ConvOp) : ∀ c : Conversation,
    (c.maxTurns ≤ c.turnNumber → c.isComplete = true) →
    ((runOps c ops).maxTurns ≤ (runOps c ops).turnNumber →
      (runOps c ops).isComplete = true) := by
  induction ops with
  | nil => intro c h; exact h
  | cons op ops ih =>
    intro c h
    rw [runOps_cons]
    exact ih _ (applyOp_threshold c op h)

theorem runOps_complete_iff (ops : List ConvOp) : ∀ c : Conversation,
    (∀ op ∈ ops, op ≠ ConvOp.endConv) →
    c.isComplete = decide (c.maxTurns ≤ c.turnNumber) →
    (runOps c ops).isComplete =
      decide ((runOps c ops).maxTurns ≤ (runOps c ops).turnNumber) := by
  induction ops with
  | nil => intro c _ h; exact h
  | cons op ops ih =>
    intro c hops h
    rw [runOps_cons]
    exact ih _ (fun o ho => hops o (List.mem_cons_of_mem op ho))
      (applyOp_complete_iff c op (hops op (List.mem_cons_self op ops)) h)

/-- Claim C1: on a session whose locked level is unset, `setLockedPrediction`
stores the given level and rationale, and every subsequent call with any
arguments leaves the stored record unchanged and returns the existing
record, so two trigger attempts yield identical locked level and rationale
(first-writer-wins). -/
theorem claim_C1_locked_level_first_writer_wins (c : Conversation) (lv : Int)
    (ra : String) (h : c.lockedPrediction = none) :
    (setLockedPrediction c lv ra).snd =
        some { level := lv, rationale := ra, lockedAtTurn := c.turnNumber } ∧
    ((setLockedPrediction c lv ra).fst).lockedPrediction =
        some { level := lv, rationale := ra, lockedAtTurn := c.turnNumber } ∧
    ∀ (lv2 : Int) (ra2 : String),
      setLockedPrediction (setLockedPrediction c lv ra).fst lv2 ra2 =
        ((setLockedPrediction c lv ra).fst,
         some { level := lv, rationale := ra, lockedAtTurn := c.turnNumber }) := by
  refine ⟨?_, ?_, ?_⟩ <;> simp [setLockedPrediction, h]

/-- Witness for C1 at a fresh conversation. -/
theorem claim_C1_witness :
    (createConversation "s1" "t1").lockedPrediction = none ∧
    (setLockedPrediction (createConversation "s1" "t1") 4 "solid reasoning").snd =
      some { level := 4, rationale := "solid reasoning", lockedAtTurn := 0 } :=
  ⟨rfl,
   (claim_C1_locked_level_first_writer_wins (createConversation "s1" "t1") 4
     "solid reasoning" rfl).1⟩

/-- Counterexample to C4 as stated: `endConversation` on a fresh session
makes the completion flag true while `turnCounter = 0 < maxTurns = 10`,
so the flag is not equivalent to `turnCounter >= maxTurns` over all
Session Store operation sequences. -/
theorem claim_C4_counterexample :
    (runOps (createConversation "s1" "t1") [ConvOp.endConv]).isComplete = true ∧
    ¬ ((runOps (createConversation "s1" "t1") [ConvOp.endConv]).maxTurns ≤
        (runOps (createConversation "s1" "t1") [ConvOp.endConv]).turnNumber) := by
  decide

/-- Claim C4 (amended): across any operation sequence from a fresh session,
`turnCounter >= maxTurns` implies the completion flag, the flag never
reverts once true, and restricted to sequences free of `endConversation`
the flag is true exactly when `turnCounter >= maxTurns`; the unrestricted
"only if" direction fails (see the counterexample) because
`endConversation` sets the flag regardless of the counter. -/
theorem claim_C4_amended (s t : String) (ops : List ConvOp) :
    ((runOps (createConversation s t) ops).maxTurns ≤
        (runOps (createConversation s t) ops).turnNumber →
      (runOps (createConversation s t) ops).isComplete = true) ∧
    (∀ more : List ConvOp,
      (runOps (createConversation s t) ops).isComplete = true →
        (runOps (createConversation s t) (ops ++ more)).isComplete = true) ∧
    ((∀ op ∈ ops, op ≠ ConvOp.endConv) →
      (runOps (createConversation s t) ops).isComplete =
        decide ((runOps (createConversation s t) ops).maxTurns ≤
          (runOps (createConversation s t) ops).turnNumber)) := by
  refine ⟨?_, ?_, ?_⟩
  · exact runOps_threshold ops (createConversation s t)
      (fun h10 => absurd h10 (by simp [createConversation, MAX_TURNS]))
  · intro more h
    rw [runOps_append]
    exact runOps_complete_mono more _ h
  · intro hops
    exact runOps_complete_iff ops (createConversation s t) hops
      (by simp [createConversation, MAX_TURNS])

/-- Witness for C4 (amended): ten tutor appends reach the turn limit and
the completion flag is set. -/
theorem claim_C4_witness :
    (runOps (createConversation "s1" "t1")
        (List.replicate 10 (ConvOp.addMsg "tutor" "q"))).isComplete = true :=
  (claim_C4_amended "s1" "t1" (List.replicate 10 (ConvOp.addMsg "tutor" "q"))).1
    (by decide)

/-- Claim C8: the phase for an upcoming tutor turn N >= 1 is `diagnostic`
exactly when N <= 5 and `tutoring` otherwise; `phaseFor` consumes only the
turn number, so the phase is independent of message content. -/
theorem claim_C8_phase_pure_function_of_turn (N : Nat) (h : 1 ≤ N) :
    (phaseFor N = "diagnostic" ↔ N ≤ 5) ∧
    (phaseFor N = "tutoring" ↔ ¬ N ≤ 5) := by
  unfold phaseFor
  by_cases h5 : N ≤ 5 <;> simp [h5]

/-- Witness for C8 at the boundary turn. -/
theorem claim_C8_witness :
    (phaseFor 5 = "diagnostic" ↔ 5 ≤ 5) ∧
    (phaseFor 5 = "tutoring" ↔ ¬ 5 ≤ 5) :=
  claim_C8_phase_pure_function_of_turn 5 (by decide)

/-- Claim C9: the turn counter increases by exactly one on a tutor-role
append, is untouched by any other role and by the other store operations,
and over any operation sequence equals the start value plus the number of
tutor-authored appends (hence is monotonically non-decreasing). -/
theorem claim_C9_turn_counter_tutor_appends_only :
    (∀ (c : Conversation) (role content : String),
      (addMessage c role content).turnNumber =
        c.turnNumber + (if role == "tutor" then 1 else 0)) ∧
    (∀ c : Conversation, (endConversation c).turnNumber = c.turnNumber) ∧
    (∀ (c : Conversation) (lv : Int) (ra : String),
      ((setLockedPrediction c lv ra).fst).turnNumber = c.turnNumber) ∧
    (∀ (c : Conversation) (ops : List ConvOp),
      (runOps c ops).turnNumber =
        c.turnNumber + ops.countP (fun op => isTutorAppend op)) :=
  ⟨addMessage_turnNumber, fun _ => rfl, setLockedPrediction_fst_turnNumber,
   fun c ops => runOps_turnNumber ops c⟩

/-- Claim C10: looking up a conversation id with no stored conversation,
`isConversationComplete` reports the session as already complete. -/
theorem claim_C10_missing_session_reported_complete (s : Store)
    (conversationId : String) (h : storeGet s conversationId = none) :
    isConversationComplete s conversationId = true := by
  simp [isConversationComplete, h]

/-- Witness for C10 on the empty store. -/
theorem claim_C10_witness :
    storeGet ([] : Store) "conv_missing" = none ∧
    isConversationComplete ([] : Store) "conv_missing" = true :=
  ⟨rfl, claim_C10_missing_session_reported_complete [] "conv_missing" rfl⟩

/-- A reachable session with five tutor messages but only four student
messages (e.g. the fifth interact request appended its tutor message and
then failed before the student reply was appended). -/
def fiveTutorFourStudent : Conversation :=
  runOps (createConversation "s1" "t1")
    [ConvOp.addMsg "tutor" "q1", ConvOp.addMsg "student" "a1",
     ConvOp.addMsg "tutor" "q2", ConvOp.addMsg "student" "a2",
     ConvOp.addMsg "tutor" "q3", ConvOp.addMsg "student" "a3",
     ConvOp.addMsg "tutor" "q4", ConvOp.addMsg "student" "a4",
     ConvOp.addMsg "tutor" "q5"]

/-- Counterexample to C2 as stated: on this session the
`/api/tutor-response` trigger fires (next turn is 6) although only four
student-authored messages exist, so that path triggers on a raw
tutor-turn-number check, not on the student-message count. -/
theorem claim_C2_counterexample :
    tutorResponseShouldRunJudge fiveTutorFourStudent = true ∧
    specLevelLockTrigger fiveTutorFourStudent = false ∧
    studentMessageCount fiveTutorFourStudent = 4 := by
  decide

/-- Claim C2 (amended): the `/api/interact` trigger is exactly the claimed
condition (no locked level and at least five student-authored messages),
while the `/api/tutor-response` trigger is `no locked level and next turn
number >= 6`, i.e. a tutor-turn-counter check independent of the
student-message count. -/
theorem claim_C2_amended (c : Conversation) :
    interactShouldRunJudge c = specLevelLockTrigger c ∧
    (tutorResponseShouldRunJudge c = true ↔
      (c.lockedPrediction = none ∧ 5 ≤ c.turnNumber)) := by
  constructor
  · rfl
  · simp only [tutorResponseShouldRunJudge, Bool.and_eq_true, decide_eq_true_eq,
      Option.isNone_iff_eq_none]
    exact and_congr_right (fun _ => by omega)

/-- Counterexample to C3 as stated: on raw judge output that is not JSON
and contains no digit in 1-5, the code locks level 3 with the empty
rationale, not the fixed fallback rationale (which the code spells
"Default (prediction failed)" and uses only when the service call
throws). -/
theorem claim_C3_counterexample :
    (runLevelLock (createConversation "s1" "t1")
        (JudgeOutcome.output none "The student could not be rated.")).fst.lockedPrediction =
      some { level := 3, rationale := "", lockedAtTurn := 0 } ∧
    ("" : String) ≠ "default (prediction failed)" := by
  decide

/-- Claim C3 (amended): when the lock fires, a JSON object with a nonzero
level in [1,5] locks exactly that level with the parsed rationale (or ""
when absent); on a JSON parse failure the first digit 1-5 of the raw text
is locked with empty rationale, and with no such digit (3, "") is locked;
a judgment-service failure locks (3, "Default (prediction failed)"); in
every case the session ends up with a locked level. -/
theorem claim_C3_amended (c : Conversation) (p : ParsedJson) (raw : String)
    (h : c.lockedPrediction = none) :
    (∀ l : Int, p.level = some l → l ≠ 0 → 1 ≤ l → l ≤ 5 →
      (runLevelLock c (JudgeOutcome.output (some p) raw)).fst.lockedPrediction =
        some { level := l, rationale := parsePredictionRationale p,
               lockedAtTurn := c.turnNumber }) ∧
    (∀ ch : Char, firstDigit15 raw = some ch →
      (runLevelLock c (JudgeOutcome.output none raw)).fst.lockedPrediction =
        some { level := digitVal ch, rationale := "", lockedAtTurn := c.turnNumber }) ∧
    (firstDigit15 raw = none →
      (runLevelLock c (JudgeOutcome.output none raw)).fst.lockedPrediction =
        some { level := 3, rationale := "", lockedAtTurn := c.turnNumber }) ∧
    ((runLevelLock c JudgeOutcome.failure).fst.lockedPrediction =
      some { level := 3, rationale := "Default (prediction failed)",
             lockedAtTurn := c.turnNumber }) ∧
    (∀ o : JudgeOutcome, ((runLevelLock c o).fst.lockedPrediction).isSome = true) := by
  refine ⟨?_, ?_, ?_, ?_, ?_⟩
  · intro l hl h0 h1 h5
    simp [runLevelLock, predictionOf, parsePredictionLevel, hl, h0, h1, h5,
      setLockedPrediction, h]
  · intro ch hch
    simp [runLevelLock, predictionOf, hch, setLockedPrediction, h]
  · intro hch
    simp [runLevelLock, predictionOf, hch, setLockedPrediction, h]
  · simp [runLevelLock, setLockedPrediction, h]
  · intro o
    cases o with
    | failure => simp [runLevelLock, setLockedPrediction, h]
    | output parsed raw2 => simp [runLevelLock, setLockedPrediction, h]

/-- Witness for C3 (amended) on the service-failure branch. -/
theorem claim_C3_witness :
    (runLevelLock (createConversation "s1" "t1")
        JudgeOutcome.failure).fst.lockedPrediction =
      some { level := 3, rationale := "Default (prediction failed)",
             lockedAtTurn := 0 } :=
  (claim_C3_amended (createConversation "s1" "t1")
      { level := none, rationale := none } "x" rfl).2.2.2.1

/-- A completed session reached by ten tutor appends. -/
def completedConv : Conversation :=
  runOps (createConversation "s1" "t1")
    (List.replicate 10 (ConvOp.addMsg "tutor" "q"))

/-- Counterexample to C5 as stated: `/api/tutor-response` on a completed
session does not fail with a "session already complete" condition; it
returns a success response, and it even mutates state by locking a
prediction. -/
theorem claim_C5_counterexample :
    completedConv.isComplete = true ∧
    isOkResponse
      (handleTutorResponse (some "cid") (some completedConv)
        (Except.ok "More teaching!") JudgeOutcome.failure).fst = true ∧
    (handleTutorResponse (some "cid") (some completedConv)
        (Except.ok "More teaching!") JudgeOutcome.failure).snd ≠
      some completedConv := by
  decide

/-- Claim C5 (amended): `/api/interact` rejects a completed session with
400 "Conversation is already complete" and an unknown id with 404, with no
state mutated; `/api/tutor-response` rejects an unknown id with 404 but
has no completed-session guard: given a dialogue result it proceeds to a
success response on a completed session. -/
theorem claim_C5_amended (cid msg : String) (c : Conversation)
    (sys : Option String) (dlg : Except String String) (judge : JudgeOutcome)
    (h : c.isComplete = true) :
    handleInteract (some cid) (some msg) (some c) sys dlg judge =
      (HttpResponse.clientError 400 "Conversation is already complete", some c) ∧
    handleInteract (some cid) (some msg) none sys dlg judge =
      (HttpResponse.clientError 404 "Conversation not found", none) ∧
    handleTutorResponse (some cid) none dlg judge =
      (HttpResponse.clientError 404 "Conversation not found", none) ∧
    (∀ reply : String,
      isOkResponse
        (handleTutorResponse (some cid) (some c)
          (Except.ok reply) judge).fst = true) := by
  refine ⟨?_, rfl, rfl, ?_⟩
  · simp [handleInteract, h]
  · intro reply
    simp only [handleTutorResponse]
    cases c.lockedPrediction with
    | some lp => rfl
    | none =>
      by_cases h6 : 6 ≤ c.turnNumber + 1 <;> simp [h6, isOkResponse]

/-- Witness for C5 (amended) on the completed session. -/
theorem claim_C5_witness :
    handleInteract (some "cid") (some "hello") (some completedConv) none
        (Except.error "e") JudgeOutcome.failure =
      (HttpResponse.clientError 400 "Conversation is already complete",
       some completedConv) :=
  (claim_C5_amended "cid" "hello" completedConv none (Except.error "e")
      JudgeOutcome.failure (by decide)).1

/-- Counterexample to C6 as stated: when dialogue generation fails, the
request state is not unchanged — the tutor message was appended before
the call, advancing the turn counter. -/
theorem claim_C6_counterexample :
    (handleInteract (some "cid") (some "What is 2 plus 2?")
        (some (createConversation "s1" "t1")) (some "sys")
        (Except.error "timeout") JudgeOutcome.failure) =
      (HttpResponse.serverError "Failed to generate student response" (some "timeout"),
       some (addMessage (createConversation "s1" "t1") "tutor" "What is 2 plus 2?")) ∧
    (addMessage (createConversation "s1" "t1") "tutor" "What is 2 plus 2?").turnNumber ≠
      (createConversation "s1" "t1").turnNumber := by
  decide

/-- Claim C6 (amended): a dialogue-generation failure on a live session is
surfaced as an HTTP 500 error and no student message is appended, but the
tutor message has already been appended: the post-request state is exactly
`addMessage c "tutor" msg`, whose log grew by the tutor message and whose
turn counter advanced by one. -/
theorem claim_C6_amended (cid msg sys e : String) (c : Conversation)
    (judge : JudgeOutcome) (h : c.isComplete = false) :
    handleInteract (some cid) (some msg) (some c) (some sys)
        (Except.error e) judge =
      (HttpResponse.serverError "Failed to generate student response" (some e),
       some (addMessage c "tutor" msg)) ∧
    (addMessage c "tutor" msg).messages =
      c.messages ++ [{ role := "tutor", content := msg }] ∧
    (addMessage c "tutor" msg).turnNumber = c.turnNumber + 1 := by
  refine ⟨?_, addMessage_messages c "tutor" msg, ?_⟩
  · simp [handleInteract, h]
  · simp [addMessage_turnNumber]

/-- Witness for C6 (amended) on a fresh session. -/
theorem claim_C6_witness :
    handleInteract (some "cid") (some "hi") (some (createConversation "s1" "t1"))
        (some "sys") (Except.error "timeout") JudgeOutcome.failure =
      (HttpResponse.serverError "Failed to generate student response" (some "timeout"),
       some (addMessage (createConversation "s1" "t1") "tutor" "hi")) :=
  (claim_C6_amended "cid" "hi" "sys" "timeout" (createConversation "s1" "t1")
      JudgeOutcome.failure rfl).1

/-- Claim C7: for turn 1 the strategy directive is the fixed opening
template for every history; for later turns it equals the directive the
specification describes — `isConfused` read off the most recent student
message, the heuristic level scored over the last three student messages
with the fixed weights and thresholds, and the branch chosen by
phase × isConfused × (heuristic level ≥ 4); with no student messages the
defaults are not-confused and mid-scale level 3, never an error. -/
theorem claim_C7_strategy_selector (turn maxTurns : Nat) (phase : String)
    (topic : Topic) (messages : List Message) :
    buildStrategyDirective turn maxTurns phase topic messages =
      specStrategyDirective turn maxTurns phase topic messages ∧
    (messages.filter (fun m => m.role == "student") = [] →
      specIsConfused messages = false ∧ specHeuristicLevel messages = 3) := by
  constructor
  · by_cases h1 : turn == 1
    · simp [buildStrategyDirective, specStrategyDirective, h1]
    · simp only [buildStrategyDirective, specStrategyDirective, h1,
        Bool.false_eq_true, if_false]
      rw [quickEstimate_eq_spec, isConfused_eq_spec]
      by_cases hd : phase == "diagnostic" <;>
        by_cases hc : specIsConfused messages <;>
          by_cases h4 : 4 ≤ specHeuristicLevel messages <;>
            simp [specGuidance, hd, hc, h4]
  · intro h
    constructor
    · simp [specIsConfused, h]
    · simp [specHeuristicLevel, h, lastN, bucketScore]

/-- Witness for C7 at turn 1 and the empty history. -/
theorem claim_C7_witness :
    buildStrategyDirective 1 10 "diagnostic" { name := some "Fractions" } [] =
      specStrategyDirective 1 10 "diagnostic" { name := some "Fractions" } [] ∧
    (specIsConfused ([] : List Message) = false ∧
      specHeuristicLevel ([] : List Message) = 3) :=
  ⟨(claim_C7_strategy_selector 1 10 "diagnostic" { name := some "Fractions" } []).1,
   (claim_C7_strategy_selector 1 10 "diagnostic" { name := some "Fractions" } []).2 rfl⟩
